import Mathlib

/-!
# Verification of the conditional-diffusion validation pipeline

Shallow embedding of the validation code of the VAE repository:
`validation/validation_pipeline.py` (guided sampling, identity mapping,
classifier data preparation, full-pipeline orchestration) and
`check_vae.py` (PSNR computation).

Float tensors are idealized as lists of rationals; real-valued analytic
quantities (PSNR) use `Real`/`EReal`.  The denoising network, the
classifier trainer and the scorer are external neural components and are
modelled as abstract function parameters / environment records, exactly
as the orchestration code treats them (opaque callables).
-/

namespace VAEVal

/-! ## Tensors as rational lists

A float tensor is idealized as a flat list of exact rationals; the
elementwise operations below are the tensor arithmetic used by the
classifier-free-guidance line of `generate_images`
(`noise_pred_uncond + guidance_scale * (noise_pred_cond - noise_pred_uncond)`). -/

def tAdd (a b : List ℚ) : List ℚ := List.zipWith (· + ·) a b

def tSub (a b : List ℚ) : List ℚ := List.zipWith (· - ·) a b

def tSmul (w : ℚ) (a : List ℚ) : List ℚ := a.map (fun x => w * x)

/-- `torch.zeros_like(user_embedding)`: an all-zero tensor of the same shape. -/
def tZerosLike (a : List ℚ) : List ℚ := a.map (fun _ => 0)

/-! ## GuidedDenoiser and SamplingLoop
(`ConditionalDiffusionValidator.generate_images`, lines 282-302)

The UNet is an abstract callable `(latents, t, encoder_hidden_states) ↦ noise`.
Every forward evaluation of the UNet goes through `callUNet`, which threads an
explicit invocation counter, so "number of forward evaluations" is part of the
embedding. -/

def callUNet (unet : List ℚ → ℕ → List ℚ → List ℚ) (c : ℕ)
    (latents : List ℚ) (t : ℕ) (emb : List ℚ) : List ℚ × ℕ :=
  (unet latents t emb, c + 1)

/-- One sampling step's guided noise estimate: conditional prediction,
unconditional prediction on `torch.zeros_like(user_embedding)`, then
`noise_pred_uncond + guidance_scale * (noise_pred_cond - noise_pred_uncond)`.
Returns the estimate together with the updated UNet-call counter. -/
def guidedNoiseEstimate (unet : List ℚ → ℕ → List ℚ → List ℚ)
    (latents : List ℚ) (t : ℕ) (userEmbedding : List ℚ) (guidance_scale : ℚ)
    (c : ℕ) : List ℚ × ℕ :=
  let condRes := callUNet unet c latents t userEmbedding
  let uncondRes := callUNet unet condRes.2 latents t (tZerosLike userEmbedding)
  (tAdd uncondRes.1 (tSmul guidance_scale (tSub condRes.1 uncondRes.1)), uncondRes.2)

/-- The reverse-diffusion loop over `self.scheduler.timesteps`: each iteration
computes the guided noise estimate and applies the scheduler's reverse step
(`self.scheduler.step(noise_pred, t, latents).prev_sample`, abstract here). -/
def samplingLoop (unet : List ℚ → ℕ → List ℚ → List ℚ)
    (schedStep : List ℚ → ℕ → List ℚ → List ℚ)
    (timesteps : List ℕ) (lat0 userEmbedding : List ℚ) (guidance_scale : ℚ)
    (c0 : ℕ) : List ℚ × ℕ :=
  timesteps.foldl
    (fun acc t =>
      let np := guidedNoiseEstimate unet acc.1 t userEmbedding guidance_scale acc.2
      (schedStep np.1 t acc.1, np.2))
    (lat0, c0)

/-! ## Filesystem model for `_get_user_id_mapping` and `_prepare_classifier_data`

A directory entry as seen by `Path.iterdir()`: its name, whether it is a
directory, and (for identity directories) the image files found by
`list(dir.glob("*.png")) + list(dir.glob("*.jpg"))`. -/

structure FsEntry where
  name : String
  isDir : Bool
  images : List String
deriving DecidableEq, Repr

/-- Python `str.isspace` characters relevant to `int()`'s surrounding-
whitespace stripping: space, tab, newline, carriage return, vertical tab,
form feed. -/
def isSpaceChar (c : Char) : Bool :=
  c.toNat = 32 || (9 ≤ c.toNat && c.toNat ≤ 13)

def stripChars (l : List Char) : List Char :=
  ((l.dropWhile isSpaceChar).reverse.dropWhile isSpaceChar).reverse

def digitVal? (c : Char) : Option ℕ :=
  if 48 ≤ c.toNat && c.toNat ≤ 57 then some (c.toNat - 48) else none

def digitsToNatAux (acc : ℕ) : List Char → Option ℕ
  | [] => some acc
  | c :: cs =>
    match digitVal? c with
    | some d => digitsToNatAux (acc * 10 + d) cs
    | none => none

/-- A non-empty all-digit character sequence read as a natural number. -/
def digitsToNat? (l : List Char) : Option ℕ :=
  match l with
  | [] => none
  | _ => digitsToNatAux 0 l

/-- Python `int(s)`: strips surrounding whitespace, then an optional sign
followed by a non-empty digit string.  (Python also allows underscores
between digits, but the parsed component here never contains an
underscore since it is a field of a `split('_')`.) -/
def pyIntOfChars? (l : List Char) : Option ℤ :=
  match stripChars l with
  | '-' :: rest => (digitsToNat? rest).map (fun n => -(n : ℤ))
  | '+' :: rest => (digitsToNat? rest).map (fun n => (n : ℤ))
  | t => (digitsToNat? t).map (fun n => (n : ℤ))

/-- Python `s.split('_')`: split on every underscore, keeping empty
fields; the empty string yields `[""]`. -/
def splitOnUnderscore : List Char → List (List Char)
  | [] => [[]]
  | c :: cs =>
    let r := splitOnUnderscore cs
    if c = '_' then [] :: r
    else
      match r with
      | [] => [[c]]
      | h :: t => (c :: h) :: t

/-- `name.startswith('ID_')`. -/
def startsWithID (l : List Char) : Bool :=
  match l with
  | 'I' :: 'D' :: '_' :: _ => true
  | _ => false

/-- `int(name.split('_')[1])`, `none` when Python would raise
(missing field or `ValueError`). -/
def parseIdFromName (name : String) : Option ℤ :=
  match (splitOnUnderscore name.data).get? 1 with
  | none => none
  | some s => pyIntOfChars? s

/-- The ids collected by `_get_user_id_mapping`'s loop: directories whose
name starts with `ID_` and whose second `_`-field parses as an integer. -/
def userIds (entries : List FsEntry) : List ℤ :=
  entries.filterMap (fun e =>
    if e.isDir && startsWithID e.name.data then parseIdFromName e.name else none)

/-- Python `sorted` on integers: ascending, stable.  (On integers any two
equal elements are identical, so the sorted list is determined by the
multiset of elements; insertion sort realizes it.) -/
def pySorted (l : List ℤ) : List ℤ := List.insertionSort (· ≤ ·) l

/-- Python `enumerate(l)` starting at index `k`, as `(value, index)` pairs
(the dict comprehension stores `{user_id: idx}`). -/
def enumPairs (k : ℕ) : List ℤ → List (ℤ × ℕ)
  | [] => []
  | x :: xs => (x, k) :: enumPairs (k + 1) xs

/-- Assignment `d[k] = v` on a dict modelled as an insertion-ordered
association list: overwrite in place if the key exists, else append. -/
def dictInsert (d : List (ℤ × ℕ)) (k : ℤ) (v : ℕ) : List (ℤ × ℕ) :=
  if d.any (fun p => p.1 = k) then
    d.map (fun p => if p.1 = k then (k, v) else p)
  else d ++ [(k, v)]

def buildDict (pairs : List (ℤ × ℕ)) : List (ℤ × ℕ) :=
  pairs.foldl (fun d p => dictInsert d p.1 p.2) []

/-- `_get_user_id_mapping`: collect ids of `ID_*` directories, sort
ascending, and build `{user_id: idx for idx, user_id in enumerate(all_users)}`. -/
def getUserIdMapping (entries : List FsEntry) : List (ℤ × ℕ) :=
  buildDict (enumPairs 0 (pySorted (userIds entries)))

/-! ## `_prepare_classifier_data` (lines 184-233) -/

/-- The directory scan of `_prepare_classifier_data`: for each directory
entry, the one named exactly `ID_<target>` becomes the target directory
(later matches overwrite earlier ones, as repeated assignment would), and
any other `ID_*` directory whose id parses and differs from the target is
appended to `other_user_dirs` in iteration order. -/
def scanDirs (targetId : ℤ) (entries : List FsEntry) :
    Option FsEntry × List FsEntry :=
  entries.foldl
    (fun acc item =>
      if item.isDir then
        if item.name = "ID_" ++ toString targetId then (some item, acc.2)
        else if startsWithID item.name.data then
          match parseIdFromName item.name with
          | some otherId =>
              if otherId ≠ targetId then (acc.1, acc.2 ++ [item]) else acc
          | none => acc
        else acc
      else acc)
    (none, [])

/-- The inner negative-sample loop: walk one directory's images, stopping
(`break`) as soon as `negative_count >= max_samples_per_class`; returns the
collected paths and the updated counter. -/
def negLoopImgs (imgs : List String) (cnt maxN : ℕ) : List String × ℕ :=
  match imgs with
  | [] => ([], cnt)
  | img :: rest =>
    if maxN ≤ cnt then ([], cnt)
    else
      let r := negLoopImgs rest (cnt + 1) maxN
      (img :: r.1, r.2)

/-- The outer negative-sample loop over `other_user_dirs`: `break` when the
cap is reached, otherwise run the inner loop on that directory's images. -/
def negLoopDirs (dirs : List (List String)) (cnt maxN : ℕ) : List String × ℕ :=
  match dirs with
  | [] => ([], cnt)
  | d :: rest =>
    if maxN ≤ cnt then ([], cnt)
    else
      let r := negLoopImgs d cnt maxN
      let r2 := negLoopDirs rest r.2 maxN
      (r.1 ++ r2.1, r2.2)

/-- `_prepare_classifier_data`: positives are the target directory's images
truncated to the cap with label 1, negatives come from the nested counter
loops with label 0; `([], [])` when the target directory is absent. -/
def prepareClassifierData (targetId : ℤ) (maxPerClass : ℕ)
    (entries : List FsEntry) : List String × List ℕ :=
  let scan := scanDirs targetId entries
  match scan.1 with
  | none => ([], [])
  | some td =>
    let pos := td.images.take maxPerClass
    let negs := (negLoopDirs (scan.2.map (fun d => d.images)) 0 maxPerClass).1
    (pos ++ negs, pos.map (fun _ => 1) ++ negs.map (fun _ => 0))

/-- Modelled from the spec: "negative examples are drawn round-robin across
all other identities" — one image from each other identity's directory in
turn, cycling through the directories, until the per-class cap is reached
or all directories are exhausted.  (The repository has no round-robin
drawing; this definition exists to compare the spec's words with the
code's sequential drawing.) -/
def roundRobinAux (fuel : ℕ) (dirs : List (List String)) (budget : ℕ) :
    List String :=
  match fuel with
  | 0 => []
  | fuel' + 1 =>
    if budget = 0 then []
    else
      let heads := dirs.filterMap List.head?
      if heads.isEmpty then []
      else
        let taken := heads.take budget
        taken ++ roundRobinAux fuel' (dirs.map List.tail) (budget - taken.length)

def roundRobinNegatives (dirs : List (List String)) (budget : ℕ) : List String :=
  roundRobinAux budget dirs budget

/-! ## `ValidationConfig` (lines 24-54)

A plain (non-frozen) dataclass.  `__post_init__` only resolves
`device == "auto"`; there is no field validation. -/

structure ValidationConfig where
  target_user_id : ℤ
  real_data_root : String
  output_dir : String := "./validation_results"
  classifier_epochs : ℤ := 30
  classifier_batch_size : ℤ := 32
  classifier_lr : ℚ := 5 / 10000
  max_samples_per_class : ℤ := 1000
  confidence_threshold : ℚ := 8 / 10
  num_images_to_generate : ℤ := 16
  guidance_scale : ℚ := 15
  num_inference_steps : ℤ := 50
  vae_path : Option String := none
  unet_path : Option String := none
  condition_encoder_path : Option String := none
  device : String := "auto"
deriving DecidableEq, Repr

/-- Dataclass construction = field assignment followed by `__post_init__`,
which resolves `device == "auto"` from CUDA availability and nothing else.
Construction is total: no field value is rejected. -/
def mkValidationConfig (cudaAvailable : Bool) (c : ValidationConfig) :
    ValidationConfig :=
  if c.device = "auto" then
    { c with device := if cudaAvailable then "cuda" else "cpu" }
  else c

/-- Modelled from the spec: "an explicit immutable configuration structure
with enumerated, validated fields at construction time (e.g., reject
guidance_scale < 0, reject non-positive epoch counts)". -/
def configValidPerSpec (c : ValidationConfig) : Prop :=
  0 ≤ c.guidance_scale ∧ 0 < c.classifier_epochs

instance (c : ValidationConfig) : Decidable (configValidPerSpec c) := by
  unfold configValidPerSpec; infer_instance

/-! ## Generated-image file names (`generate_images`, line 316) -/

/-- Python `f"{n:02d}"` for a non-negative value: zero-pad to width 2. -/
def pad2 (n : ℕ) : String :=
  if n < 10 then "0" ++ toString n else toString n

/-- The file name used by `generate_images` for loop index `i`
(0-based): `f"user_{target_user_id}_generated_{i+1:02d}.png"`. -/
def generatedFileName (targetId : ℤ) (i : ℕ) : String :=
  "user_" ++ toString targetId ++ "_generated_" ++ pad2 (i + 1) ++ ".png"

/-- Modelled from the spec: file naming scheme
`identity_<id>_generated_<index>.png` with `<index>` the image's index in
the generation run. -/
def specFileName (targetId : ℤ) (i : ℕ) : String :=
  "identity_" ++ toString targetId ++ "_generated_" ++ toString i ++ ".png"

/-- The list of file names saved during one generation run of
`num_images_to_generate` images (`for i in range(...)`). -/
def savedFileNames (targetId : ℤ) (numImages : ℕ) : List String :=
  (List.range numImages).map (fun i => generatedFileName targetId i)

/-! ## Full-pipeline orchestration (`run_full_pipeline`, lines 352-404, and
`train_classifier`, lines 145-182)

The neural components are an environment record: the classifier-training
history that `UserValidationSystem.train_user_classifier` would return
(`none` models a data-preparation failure or exception, caught and turned
into `False`), whether `load_models` succeeds, whether `generate_images`
returns a directory, and the scorer's result dict (`none` models the empty
dict returned when validation raises). -/

structure ScorerResult where
  success_rate : ℚ
  avg_confidence : ℚ
deriving DecidableEq, Repr

structure PipelineEnv where
  classifierValAcc : Option (List ℚ)
  loadModelsOk : Bool
  generateOk : Bool
  scorerResult : Option ScorerResult
deriving DecidableEq, Repr

/-- Python `max` on a list: `none` for the empty list (a `ValueError`). -/
def pyMax (l : List ℚ) : Option ℚ :=
  match l with
  | [] => none
  | x :: xs => some (xs.foldl (fun a b => if a < b then b else a) x)

/-- `train_classifier`: `False` when data preparation yields nothing or an
exception occurs (including `max` on an empty history), otherwise
`best_val_acc > 0.7`. -/
def trainClassifierOk (env : PipelineEnv) : Bool :=
  match env.classifierValAcc with
  | none => false
  | some h =>
    match pyMax h with
    | none => false
    | some best => if (7 : ℚ) / 10 < best then true else false

structure PipelineResults where
  classifier_trained : Bool
  images_generated : Bool
  validation_completed : Bool
  success : Bool
deriving DecidableEq, Repr

/-- `run_full_pipeline`.  The second component of the result records
whether `self.generate_images()` was invoked (the call on line 381 is
reached only after the classifier gate passed, with `generate_images=True`
and `load_models()` succeeding). -/
def runFullPipeline (env : PipelineEnv) (genFlag : Bool) :
    PipelineResults × Bool :=
  let r0 : PipelineResults :=
    { classifier_trained := false, images_generated := false
      validation_completed := false, success := false }
  if trainClassifierOk env = false then (r0, false)
  else
    let r1 := { r0 with classifier_trained := true }
    let genAttempted := genFlag && env.loadModelsOk
    let generatedDir := genFlag && env.loadModelsOk && env.generateOk
    let r2 :=
      if generatedDir then { r1 with images_generated := true } else r1
    if generatedDir then
      match env.scorerResult with
      | none => (r2, genAttempted)
      | some v =>
        let r3 := { r2 with validation_completed := true }
        if (6 : ℚ) / 10 ≤ v.success_rate ∧ (8 : ℚ) / 10 ≤ v.avg_confidence then
          ({ r3 with success := true }, genAttempted)
        else (r3, genAttempted)
    else (r2, genAttempted)

/-! ## PSNR (`check_vae.py`, `check_reconstruction_quality`, line 187)

`psnr = 20 * np.log10(1.0 / np.sqrt(avg_mse)) if avg_mse > 0 else float('inf')` -/

noncomputable def psnrOfMse (mse : ℝ) : EReal :=
  if 0 < mse then ((20 * Real.logb 10 (1 / Real.sqrt mse) : ℝ) : EReal)
  else ⊤

/-- A concrete raw configuration with a negative guidance scale and a
non-positive epoch count. -/
def badRawConfig : ValidationConfig :=
  { target_user_id := 1, real_data_root := "/data",
    guidance_scale := -1, classifier_epochs := 0 }

/-!
# Theorems
-/

/-! ## Pipeline control flow: explicit case form of `run_full_pipeline` -/

theorem runFullPipeline_cases (env : PipelineEnv) (genFlag : Bool) :
    runFullPipeline env genFlag =
      if trainClassifierOk env = false then
        ({ classifier_trained := false, images_generated := false,
           validation_completed := false, success := false }, false)
      else if genFlag && env.loadModelsOk && env.generateOk then
        match env.scorerResult with
        | none =>
            ({ classifier_trained := true, images_generated := true,
               validation_completed := false, success := false },
             genFlag && env.loadModelsOk)
        | some v =>
            if (6 : ℚ) / 10 ≤ v.success_rate ∧ (8 : ℚ) / 10 ≤ v.avg_confidence then
              ({ classifier_trained := true, images_generated := true,
                 validation_completed := true, success := true },
               genFlag && env.loadModelsOk)
            else
              ({ classifier_trained := true, images_generated := true,
                 validation_completed := true, success := false },
               genFlag && env.loadModelsOk)
      else
        ({ classifier_trained := true, images_generated := false,
           validation_completed := false, success := false },
         genFlag && env.loadModelsOk) := by
  cases hT : trainClassifierOk env <;>
    cases hG : genFlag <;>
      cases hL : env.loadModelsOk <;>
        cases hGen : env.generateOk <;>
          cases hS : env.scorerResult <;>
            simp [runFullPipeline, hT, hG, hL, hGen, hS]

/-- C2: for every completed validation run, the overall success flag is
true iff the scorer's success_rate is at least 0.6 AND the mean confidence
is at least 0.8; either metric below threshold makes the run unsuccessful. -/
theorem overall_success_iff_conjunctive_gate (env : PipelineEnv) (genFlag : Bool)
    (v : ScorerResult) (hv : env.scorerResult = some v)
    (hc : ((runFullPipeline env genFlag).1).validation_completed = true) :
    ((runFullPipeline env genFlag).1).success = true ↔
      ((6 : ℚ) / 10 ≤ v.success_rate ∧ (8 : ℚ) / 10 ≤ v.avg_confidence) := by
  rw [runFullPipeline_cases] at hc ⊢
  by_cases hT : trainClassifierOk env = false
  · simp [hT] at hc
  · by_cases hG : (genFlag && env.loadModelsOk && env.generateOk) = true
    · simp only [hT, hG, if_false, if_true, hv] at hc ⊢
      by_cases hgate : ((6 : ℚ) / 10 ≤ v.success_rate ∧ (8 : ℚ) / 10 ≤ v.avg_confidence)
      · simp [hgate]
      · simp [hgate] at hc ⊢
    · simp [hT, hG] at hc

theorem c2_witness :
    (PipelineEnv.mk (some [(3 : ℚ) / 4]) true true
        (some ⟨(7 : ℚ) / 10, (9 : ℚ) / 10⟩)).scorerResult
        = some ⟨(7 : ℚ) / 10, (9 : ℚ) / 10⟩ ∧
    ((runFullPipeline (PipelineEnv.mk (some [(3 : ℚ) / 4]) true true
        (some ⟨(7 : ℚ) / 10, (9 : ℚ) / 10⟩)) true).1).validation_completed = true ∧
    (((runFullPipeline (PipelineEnv.mk (some [(3 : ℚ) / 4]) true true
        (some ⟨(7 : ℚ) / 10, (9 : ℚ) / 10⟩)) true).1).success = true ↔
      ((6 : ℚ) / 10 ≤ ((7 : ℚ) / 10) ∧ (8 : ℚ) / 10 ≤ ((9 : ℚ) / 10))) :=
  ⟨rfl,
   by norm_num [runFullPipeline, trainClassifierOk, pyMax],
   overall_success_iff_conjunctive_gate _ true ⟨(7 : ℚ) / 10, (9 : ℚ) / 10⟩ rfl
     (by norm_num [runFullPipeline, trainClassifierOk, pyMax])⟩

/-- C6: if the classifier training's best validation accuracy does not
exceed 0.7, the pipeline returns before generation: `generate_images` is
never invoked and no images are reported generated. -/
theorem low_accuracy_blocks_generation (env : PipelineEnv) (genFlag : Bool)
    (accs : List ℚ) (best : ℚ)
    (hacc : env.classifierValAcc = some accs)
    (hbest : pyMax accs = some best)
    (hle : best ≤ (7 : ℚ) / 10) :
    (runFullPipeline env genFlag).2 = false ∧
    ((runFullPipeline env genFlag).1).images_generated = false := by
  have hT : trainClassifierOk env = false := by
    unfold trainClassifierOk
    rw [hacc]
    simp [hbest, not_lt.mpr hle]
  rw [runFullPipeline_cases]
  simp [hT]

theorem c6_witness :
    (PipelineEnv.mk (some [(1 : ℚ) / 2, (7 : ℚ) / 10]) true true none).classifierValAcc
        = some [(1 : ℚ) / 2, (7 : ℚ) / 10] ∧
    pyMax [(1 : ℚ) / 2, (7 : ℚ) / 10] = some ((7 : ℚ) / 10) ∧
    (7 : ℚ) / 10 ≤ (7 : ℚ) / 10 ∧
    (runFullPipeline (PipelineEnv.mk (some [(1 : ℚ) / 2, (7 : ℚ) / 10]) true true none)
        true).2 = false ∧
    ((runFullPipeline (PipelineEnv.mk (some [(1 : ℚ) / 2, (7 : ℚ) / 10]) true true none)
        true).1).images_generated = false := by
  refine ⟨rfl, by norm_num [pyMax], by norm_num, ?_⟩
  exact low_accuracy_blocks_generation _ true [(1 : ℚ) / 2, (7 : ℚ) / 10] ((7 : ℚ) / 10)
    rfl (by norm_num [pyMax]) (by norm_num)

/-- C10: on every execution path the result record's flags satisfy
success → validation_completed → images_generated → classifier_trained
(as the Boolean order, false < true). -/
theorem result_flag_implication_chain (env : PipelineEnv) (genFlag : Bool) :
    ((runFullPipeline env genFlag).1).success ≤
        ((runFullPipeline env genFlag).1).validation_completed ∧
    ((runFullPipeline env genFlag).1).validation_completed ≤
        ((runFullPipeline env genFlag).1).images_generated ∧
    ((runFullPipeline env genFlag).1).images_generated ≤
        ((runFullPipeline env genFlag).1).classifier_trained := by
  rw [runFullPipeline_cases]
  by_cases hT : trainClassifierOk env = false
  · simp [hT]
  · by_cases hG : (genFlag && env.loadModelsOk && env.generateOk) = true
    · cases hS : env.scorerResult with
      | none => simp [hT, hG, hS]
      | some v =>
        by_cases hgate : ((6 : ℚ) / 10 ≤ v.success_rate ∧ (8 : ℚ) / 10 ≤ v.avg_confidence) <;>
          simp [hT, hG, hS, hgate]
    · simp [hT, hG]

/-! ## Guided denoising -/

theorem samplingLoop_calls (unet : List ℚ → ℕ → List ℚ → List ℚ)
    (schedStep : List ℚ → ℕ → List ℚ → List ℚ)
    (emb : List ℚ) (w : ℚ) :
    ∀ (ts : List ℕ) (lat0 : List ℚ) (c0 : ℕ),
      (samplingLoop unet schedStep ts lat0 emb w c0).2 = c0 + 2 * ts.length := by
  intro ts
  induction ts with
  | nil => intro lat0 c0; simp [samplingLoop]
  | cons t ts ih =>
    intro lat0 c0
    have h := ih (schedStep (guidedNoiseEstimate unet lat0 t emb w c0).1 t lat0) (c0 + 2)
    simp only [samplingLoop, List.foldl_cons] at h ⊢
    rw [show (guidedNoiseEstimate unet lat0 t emb w c0).2 = c0 + 2 from rfl]
    rw [h]
    simp [Nat.mul_succ]
    omega

/-- C1: every sampling step's guided estimate equals
`uncond + w * (cond - uncond)` with `uncond` the output on the all-zero
embedding of the identity embedding's shape, and each step performs
exactly two forward evaluations of the denoising network (so a run over
the timestep list makes two per step). -/
theorem guided_estimate_formula_and_two_evals
    (unet : List ℚ → ℕ → List ℚ → List ℚ)
    (schedStep : List ℚ → ℕ → List ℚ → List ℚ)
    (latents : List ℚ) (t : ℕ) (emb : List ℚ) (w : ℚ) (c : ℕ)
    (timesteps : List ℕ) (lat0 : List ℚ) :
    (guidedNoiseEstimate unet latents t emb w c).1 =
      tAdd (unet latents t (tZerosLike emb))
        (tSmul w (tSub (unet latents t emb) (unet latents t (tZerosLike emb)))) ∧
    (guidedNoiseEstimate unet latents t emb w c).2 = c + 2 ∧
    (samplingLoop unet schedStep timesteps lat0 emb w 0).2 = 2 * timesteps.length := by
  refine ⟨rfl, rfl, ?_⟩
  have h := samplingLoop_calls unet schedStep emb w timesteps lat0 0
  omega

theorem tAdd_tSmul_zero (u c : List ℚ) (h : u.length = c.length) :
    tAdd u (tSmul 0 (tSub c u)) = u := by
  induction u generalizing c with
  | nil => simp [tAdd]
  | cons x xs ih =>
    cases c with
    | nil => simp at h
    | cons y ys =>
      simp only [tAdd, tSub, tSmul, List.zipWith_cons_cons, List.map_cons,
        List.cons.injEq]
      refine ⟨by ring, ih ys (by simpa using h)⟩

/-- C7: with guidance scale 0 the guided estimate is exactly the
denoiser's output on the all-zero embedding (shapes of the two outputs
being equal, as they are for a UNet whose output shape matches its
input latent). -/
theorem guidance_zero_is_unconditional
    (unet : List ℚ → ℕ → List ℚ → List ℚ)
    (latents : List ℚ) (t : ℕ) (emb : List ℚ) (c : ℕ)
    (h : (unet latents t (tZerosLike emb)).length = (unet latents t emb).length) :
    (guidedNoiseEstimate unet latents t emb 0 c).1 =
      unet latents t (tZerosLike emb) := by
  show tAdd (unet latents t (tZerosLike emb))
      (tSmul 0 (tSub (unet latents t emb) (unet latents t (tZerosLike emb)))) =
    unet latents t (tZerosLike emb)
  exact tAdd_tSmul_zero _ _ h

theorem c7_witness :
    ((fun (l : List ℚ) (_ : ℕ) (e : List ℚ) => tAdd l e) [1, 2] 5
        (tZerosLike [3, 4])).length =
      ((fun (l : List ℚ) (_ : ℕ) (e : List ℚ) => tAdd l e) [1, 2] 5 [3, 4]).length ∧
    (guidedNoiseEstimate (fun l _ e => tAdd l e) [1, 2] 5 [3, 4] 0 0).1 =
      (fun (l : List ℚ) (_ : ℕ) (e : List ℚ) => tAdd l e) [1, 2] 5 (tZerosLike [3, 4]) :=
  ⟨rfl, guidance_zero_is_unconditional (fun l _ e => tAdd l e) [1, 2] 5 [3, 4] 0 rfl⟩

/-! ## PSNR -/

/-- C4: PSNR is computed as `20*log10(1/sqrt(MSE))`; MSE = 0 yields plus
infinity, and on positive MSE the PSNR is strictly decreasing. -/
theorem psnr_formula_inf_at_zero_strict_anti :
    psnrOfMse 0 = ⊤ ∧
    (∀ m : ℝ, 0 < m →
      psnrOfMse m = ((20 * Real.logb 10 (1 / Real.sqrt m) : ℝ) : EReal)) ∧
    ∀ m n : ℝ, 0 < m → m < n → psnrOfMse n < psnrOfMse m := by
  refine ⟨by simp [psnrOfMse], fun m hm => by simp [psnrOfMse, hm], ?_⟩
  intro m n hm hmn
  have hn : 0 < n := hm.trans hmn
  rw [psnrOfMse, psnrOfMse, if_pos hm, if_pos hn]
  rw [EReal.coe_lt_coe_iff]
  have hsm : 0 < Real.sqrt m := Real.sqrt_pos.mpr hm
  have hlt : Real.sqrt m < Real.sqrt n := Real.sqrt_lt_sqrt hm.le hmn
  have hinv : 1 / Real.sqrt n < 1 / Real.sqrt m := one_div_lt_one_div_of_lt hsm hlt
  have hpos : 0 < 1 / Real.sqrt n :=
    one_div_pos.mpr (Real.sqrt_pos.mpr hn)
  have hlog : Real.logb 10 (1 / Real.sqrt n) < Real.logb 10 (1 / Real.sqrt m) :=
    Real.logb_lt_logb (by norm_num) hpos hinv
  linarith

theorem c4_witness :
    (0 : ℝ) < 1 ∧ (1 : ℝ) < 2 ∧ psnrOfMse 2 < psnrOfMse 1 :=
  ⟨by norm_num, by norm_num,
    psnr_formula_inf_at_zero_strict_anti.2.2 1 2 (by norm_num) (by norm_num)⟩

/-! ## Configuration -/

/-- C8 counterexample: a configuration with guidance_scale = -1 and
classifier_epochs = 0 is accepted by construction, values stored
unchanged, violating the spec's construction-time validation. -/
theorem config_no_validation_counterexample :
    (mkValidationConfig false badRawConfig).guidance_scale = -1 ∧
    (mkValidationConfig false badRawConfig).classifier_epochs = 0 ∧
    ¬ configValidPerSpec (mkValidationConfig false badRawConfig) := by
  norm_num [mkValidationConfig, badRawConfig, configValidPerSpec]

/-- C8 amended: construction performs no field validation — a
configuration with negative guidance scale (and any epoch count) is
accepted with its field values unchanged, and it fails the spec's
validity predicate. -/
theorem config_construction_accepts_invalid (cuda : Bool) (c : ValidationConfig)
    (hg : c.guidance_scale < 0) :
    (mkValidationConfig cuda c).guidance_scale = c.guidance_scale ∧
    (mkValidationConfig cuda c).classifier_epochs = c.classifier_epochs ∧
    ¬ configValidPerSpec (mkValidationConfig cuda c) := by
  unfold mkValidationConfig configValidPerSpec
  split <;> simp <;> intro hpos <;> exact absurd hpos (not_le.mpr hg)

theorem c8_witness :
    badRawConfig.guidance_scale < 0 ∧
    ((mkValidationConfig false badRawConfig).guidance_scale =
        badRawConfig.guidance_scale ∧
      (mkValidationConfig false badRawConfig).classifier_epochs =
        badRawConfig.classifier_epochs ∧
      ¬ configValidPerSpec (mkValidationConfig false badRawConfig)) :=
  ⟨by norm_num [badRawConfig],
    config_construction_accepts_invalid false badRawConfig
      (by norm_num [badRawConfig])⟩

/-! ## File names -/

/-- C9 counterexample: the generation loop saves
`user_3_generated_01.png` for identity 3 at loop index 0, which is not of
the claimed `identity_<id>_generated_<index>.png` form (for either a
0-based or a 1-based index). -/
theorem generated_file_name_counterexample :
    generatedFileName 3 0 = "user_3_generated_01.png" ∧
    specFileName 3 0 = "identity_3_generated_0.png" ∧
    generatedFileName 3 0 ≠ specFileName 3 0 ∧
    generatedFileName 3 0 ≠ specFileName 3 1 ∧
    (generatedFileName 3 0).data.take 9 ≠ "identity_".data := by
  decide

/-- C9 amended: every saved file of a generation run is named
`user_<id>_generated_<k>.png` where `k` is the loop index plus one,
zero-padded to two digits. -/
theorem saved_names_follow_user_scheme (targetId : ℤ) (n i : ℕ) (h : i < n) :
    (savedFileNames targetId n).length = n ∧
    (savedFileNames targetId n).get? i =
      some ("user_" ++ toString targetId ++ "_generated_" ++ pad2 (i + 1) ++ ".png") := by
  constructor
  · simp [savedFileNames]
  · simp only [savedFileNames, List.get?_eq_getElem?, List.getElem?_map,
      List.getElem?_range h, Option.map_some]
    rfl

theorem c9_witness :
    0 < 2 ∧
    ((savedFileNames 3 2).length = 2 ∧
      (savedFileNames 3 2).get? 0 =
        some ("user_" ++ toString (3 : ℤ) ++ "_generated_" ++ pad2 1 ++ ".png")) :=
  ⟨by norm_num, saved_names_follow_user_scheme 3 2 0 (by norm_num)⟩

end VAEVal

namespace VAEVal

theorem negLoopImgs_eq (imgs : List String) :
    ∀ cnt maxN : ℕ,
      negLoopImgs imgs cnt maxN =
        (imgs.take (maxN - cnt), cnt + min (maxN - cnt) imgs.length) := by
  induction imgs with
  | nil => intro cnt maxN; simp [negLoopImgs]
  | cons img rest ih =>
    intro cnt maxN
    by_cases h : maxN ≤ cnt
    · have h0 : maxN - cnt = 0 := by omega
      simp [negLoopImgs, h, h0]
    · have h1 : maxN - cnt = (maxN - (cnt + 1)) + 1 := by omega
      simp only [negLoopImgs, if_neg h, ih (cnt + 1) maxN, h1, List.take_succ_cons,
        List.length_cons, Prod.mk.injEq]
      exact ⟨by trivial, by omega⟩

theorem negLoopDirs_eq (dirs : List (List String)) :
    ∀ cnt maxN : ℕ,
      negLoopDirs dirs cnt maxN =
        (dirs.flatten.take (maxN - cnt), cnt + min (maxN - cnt) dirs.flatten.length) := by
  induction dirs with
  | nil => intro cnt maxN; simp [negLoopDirs]
  | cons d rest ih =>
    intro cnt maxN
    by_cases h : maxN ≤ cnt
    · have h0 : maxN - cnt = 0 := by omega
      simp [negLoopDirs, h, h0]
    · simp only [negLoopDirs, if_neg h, negLoopImgs_eq, ih, List.flatten_cons]
      rw [List.take_append_eq_append_take, Prod.mk.injEq]
      refine ⟨?_, ?_⟩
      · have h2 : maxN - (cnt + min (maxN - cnt) d.length) = maxN - cnt - d.length := by
          omega
        rw [h2]
      · simp only [List.length_append]
        omega

/-- C5 counterexample: with `max_samples_per_class = 2`, target identity 1
and other identities 2 (images a1, a2) and 3 (image b1), the code draws
both negatives from identity 2 and none from identity 3, while a
round-robin drawing would take a1 then b1. -/
theorem classifier_negatives_not_round_robin :
    prepareClassifierData 1 2
        [⟨"ID_1", true, ["t1", "t2", "t3"]⟩, ⟨"ID_2", true, ["a1", "a2"]⟩,
          ⟨"ID_3", true, ["b1"]⟩] =
      (["t1", "t2", "a1", "a2"], [1, 1, 0, 0]) ∧
    roundRobinNegatives [["a1", "a2"], ["b1"]] 2 = ["a1", "b1"] ∧
    "b1" ∉ (prepareClassifierData 1 2
        [⟨"ID_1", true, ["t1", "t2", "t3"]⟩, ⟨"ID_2", true, ["a1", "a2"]⟩,
          ⟨"ID_3", true, ["b1"]⟩]).1 ∧
    "b1" ∈ roundRobinNegatives [["a1", "a2"], ["b1"]] 2 := by
  decide

/-- C5 amended: positives and negatives are each capped at the configured
per-class maximum, but negatives are drawn sequentially over the other
identities' directories in iteration order — the concatenation of their
image lists truncated at the cap — exhausting each directory before the
next, not round-robin. -/
theorem classifier_data_caps_and_sequential_negatives (targetId : ℤ) (maxN : ℕ)
    (entries : List FsEntry) (td : FsEntry) (others : List FsEntry)
    (hscan : scanDirs targetId entries = (some td, others)) :
    prepareClassifierData targetId maxN entries =
      (td.images.take maxN ++ ((others.map (fun d => d.images)).flatten.take maxN),
       (td.images.take maxN).map (fun _ => 1) ++
         ((others.map (fun d => d.images)).flatten.take maxN).map (fun _ => 0)) ∧
    (td.images.take maxN).length ≤ maxN ∧
    ((others.map (fun d => d.images)).flatten.take maxN).length ≤ maxN := by
  refine ⟨?_, ?_, ?_⟩
  · unfold prepareClassifierData
    rw [hscan]
    simp [negLoopDirs_eq]
  · simp
  · simp

theorem c5_witness :
    scanDirs 1 [⟨"ID_1", true, ["t1", "t2", "t3"]⟩, ⟨"ID_2", true, ["a1", "a2"]⟩,
        ⟨"ID_3", true, ["b1"]⟩] =
      (some ⟨"ID_1", true, ["t1", "t2", "t3"]⟩,
        [⟨"ID_2", true, ["a1", "a2"]⟩, ⟨"ID_3", true, ["b1"]⟩]) ∧
    prepareClassifierData 1 2 [⟨"ID_1", true, ["t1", "t2", "t3"]⟩,
        ⟨"ID_2", true, ["a1", "a2"]⟩, ⟨"ID_3", true, ["b1"]⟩] =
      ((["t1", "t2", "t3"] : List String).take 2 ++
        (([⟨"ID_2", true, ["a1", "a2"]⟩,
            ⟨"ID_3", true, ["b1"]⟩] : List FsEntry).map (fun d => d.images)).flatten.take 2,
       ((["t1", "t2", "t3"] : List String).take 2).map (fun _ => 1) ++
        ((([⟨"ID_2", true, ["a1", "a2"]⟩,
            ⟨"ID_3", true, ["b1"]⟩] : List FsEntry).map
              (fun d => d.images)).flatten.take 2).map (fun _ => 0)) := by
  refine ⟨by decide, ?_⟩
  exact (classifier_data_caps_and_sequential_negatives 1 2
    [⟨"ID_1", true, ["t1", "t2", "t3"]⟩, ⟨"ID_2", true, ["a1", "a2"]⟩,
      ⟨"ID_3", true, ["b1"]⟩]
    ⟨"ID_1", true, ["t1", "t2", "t3"]⟩
    [⟨"ID_2", true, ["a1", "a2"]⟩, ⟨"ID_3", true, ["b1"]⟩] (by decide)).1

end VAEVal

namespace VAEVal

theorem dictInsert_new (acc : List (ℤ × ℕ)) (k : ℤ) (v : ℕ)
    (h : ∀ p ∈ acc, p.1 ≠ k) : dictInsert acc k v = acc ++ [(k, v)] := by
  unfold dictInsert
  rw [if_neg]
  simp only [List.any_eq_true, decide_eq_true_eq, not_exists]
  intro p
  intro hmem
  exact h p hmem.1 hmem.2

theorem foldl_dictInsert (ps : List (ℤ × ℕ)) :
    ∀ acc : List (ℤ × ℕ), ((acc ++ ps).map Prod.fst).Nodup →
      ps.foldl (fun d p => dictInsert d p.1 p.2) acc = acc ++ ps := by
  induction ps with
  | nil => intro acc _; simp
  | cons p rest ih =>
    intro acc h
    have h' := h
    rw [List.map_append] at h'
    rcases List.nodup_append.mp h' with ⟨_, _, hdisj⟩
    have hk : ∀ q ∈ acc, q.1 ≠ p.1 := by
      intro q hq hqe
      exact hdisj (List.mem_map_of_mem Prod.fst hq) (by rw [hqe]; simp)
    rw [List.foldl_cons, dictInsert_new acc p.1 p.2 hk]
    have heq : (acc ++ [(p.1, p.2)]) ++ rest = acc ++ p :: rest := by
      simp
    have hn2 : (((acc ++ [(p.1, p.2)]) ++ rest).map Prod.fst).Nodup := by
      rw [heq]; exact h
    rw [ih (acc ++ [(p.1, p.2)]) hn2]
    simp

theorem enumPairs_map_fst (l : List ℤ) : ∀ k, (enumPairs k l).map Prod.fst = l := by
  induction l with
  | nil => intro k; rfl
  | cons x xs ih => intro k; simp [enumPairs, ih]

theorem enumPairs_map_snd (l : List ℤ) :
    ∀ k, (enumPairs k l).map Prod.snd = List.range' k l.length := by
  induction l with
  | nil => intro k; rfl
  | cons x xs ih => intro k; simp [enumPairs, ih, List.range'_succ]

theorem buildDict_of_nodup (l : List ℤ) (hl : l.Nodup) :
    buildDict (enumPairs 0 l) = enumPairs 0 l := by
  unfold buildDict
  have h := foldl_dictInsert (enumPairs 0 l) []
  simp only [List.nil_append] at h
  exact h (by rw [enumPairs_map_fst]; exact hl)

/-- C3 amended: provided distinct subdirectories parse to distinct
identity ids, the mapping lists the found ids in ascending sorted order
paired with exactly the indices 0..N-1 (a bijection onto the dense
range), and re-running the construction on any reordering of the same
directory contents yields the identical mapping. -/
theorem user_id_mapping_bijection_of_distinct (e1 e2 : List FsEntry)
    (hperm : e1.Perm e2) (hnodup : (userIds e1).Nodup) :
    List.Sorted (· ≤ ·) ((getUserIdMapping e1).map Prod.fst) ∧
    ((getUserIdMapping e1).map Prod.fst).Perm (userIds e1) ∧
    (getUserIdMapping e1).map Prod.snd = List.range (userIds e1).length ∧
    getUserIdMapping e2 = getUserIdMapping e1 := by
  have hsortperm : (pySorted (userIds e1)).Perm (userIds e1) :=
    List.perm_insertionSort _ _
  have hsnodup : (pySorted (userIds e1)).Nodup := hsortperm.nodup_iff.mpr hnodup
  have hmap : getUserIdMapping e1 = enumPairs 0 (pySorted (userIds e1)) :=
    buildDict_of_nodup _ hsnodup
  have hidsperm : (userIds e2).Perm (userIds e1) :=
    (List.Perm.filterMap _ hperm).symm
  have hs2 : List.Sorted (· ≤ ·) (pySorted (userIds e2)) :=
    List.sorted_insertionSort _ _
  have hs1 : List.Sorted (· ≤ ·) (pySorted (userIds e1)) :=
    List.sorted_insertionSort _ _
  have hsorteq : pySorted (userIds e2) = pySorted (userIds e1) :=
    List.eq_of_perm_of_sorted
      ((List.perm_insertionSort _ _).trans (hidsperm.trans hsortperm.symm)) hs2 hs1
  refine ⟨?_, ?_, ?_, ?_⟩
  · rw [hmap, enumPairs_map_fst]
    exact List.sorted_insertionSort _ _
  · rw [hmap, enumPairs_map_fst]
    exact hsortperm
  · rw [hmap, enumPairs_map_snd, hsortperm.length_eq, List.range_eq_range']
  · unfold getUserIdMapping
    rw [hsorteq]

/-- C3 counterexample: the directories `ID_5` and `ID_05` both parse to
identity id 5; the constructed mapping is `{5: 1}`, whose index set {1}
is not the dense range 0..N-1 for N = 1 identity (nor for N = 2
directories found). -/
theorem user_id_mapping_counterexample :
    userIds [⟨"ID_5", true, []⟩, ⟨"ID_05", true, []⟩] = [5, 5] ∧
    getUserIdMapping [⟨"ID_5", true, []⟩, ⟨"ID_05", true, []⟩] = [(5, 1)] ∧
    (getUserIdMapping [⟨"ID_5", true, []⟩, ⟨"ID_05", true, []⟩]).map Prod.snd ≠
      List.range (getUserIdMapping [⟨"ID_5", true, []⟩, ⟨"ID_05", true, []⟩]).length ∧
    (getUserIdMapping [⟨"ID_5", true, []⟩, ⟨"ID_05", true, []⟩]).map Prod.snd ≠
      List.range 2 := by
  decide

theorem c3_witness :
    ([⟨"ID_12", true, []⟩, ⟨"ID_3", true, []⟩] : List FsEntry).Perm
        [⟨"ID_3", true, []⟩, ⟨"ID_12", true, []⟩] ∧
    (userIds [⟨"ID_12", true, []⟩, ⟨"ID_3", true, []⟩]).Nodup ∧
    (List.Sorted (· ≤ ·)
        ((getUserIdMapping [⟨"ID_12", true, []⟩, ⟨"ID_3", true, []⟩]).map Prod.fst) ∧
      ((getUserIdMapping [⟨"ID_12", true, []⟩, ⟨"ID_3", true, []⟩]).map Prod.fst).Perm
        (userIds [⟨"ID_12", true, []⟩, ⟨"ID_3", true, []⟩]) ∧
      (getUserIdMapping [⟨"ID_12", true, []⟩, ⟨"ID_3", true, []⟩]).map Prod.snd =
        List.range (userIds [⟨"ID_12", true, []⟩, ⟨"ID_3", true, []⟩]).length ∧
      getUserIdMapping [⟨"ID_3", true, []⟩, ⟨"ID_12", true, []⟩] =
        getUserIdMapping [⟨"ID_12", true, []⟩, ⟨"ID_3", true, []⟩]) := by
  refine ⟨List.Perm.swap _ _ _, by decide, ?_⟩
  exact user_id_mapping_bijection_of_distinct
    [⟨"ID_12", true, []⟩, ⟨"ID_3", true, []⟩]
    [⟨"ID_3", true, []⟩, ⟨"ID_12", true, []⟩]
    (List.Perm.swap _ _ _) (by decide)

end VAEVal
